import Mathlib

/-!
Verification development for the two hardware-wallet multisig confirmation
scripts (the Ledger variant `sign.py` and the Trezor variant
`sign_trezor.py`).  The scripts are shallowly embedded: bytes are `List Nat`
(each entry < 256), the interactive inputs and external device/node
responses are explicit parameters, and the library layers the scripts rely
on (Keccak-256 for the ABI selector, the ABI call-data encoding, the RLP
serialization of pyrlp, web3's `buildTransaction` defaults and
`toWei(_, gwei)`) are embedded from their fixed published behaviour.
-/

set_option maxRecDepth 10000

namespace Multisig

/-! ### Keccak-256 (the hash behind the ABI function selector)

Embedded from the Keccak reference used by web3's ABI encoder: original
Keccak padding (0x01 … 0x80), rate 1088 bits, 25 lanes of 64 bits.  Lanes
are `Nat` reduced mod 2^64 at every rotation. -/

def rotl64 (x n : Nat) : Nat :=
  ((x <<< n) ||| (x >>> (64 - n))) % 2 ^ 64

/-- The 24 round constants, given as (low, high) 32-bit halves of the
standard 64-bit words. -/
def keccakRCHalves : List (Nat × Nat) :=
  [(0x00000001, 0x00000000),
   (0x00008082, 0x00000000),
   (0x0000808a, 0x80000000),
   (0x80008000, 0x80000000),
   (0x0000808b, 0x00000000),
   (0x80000001, 0x00000000),
   (0x80008081, 0x80000000),
   (0x00008009, 0x80000000),
   (0x0000008a, 0x00000000),
   (0x00000088, 0x00000000),
   (0x80008009, 0x00000000),
   (0x8000000a, 0x00000000),
   (0x8000808b, 0x00000000),
   (0x0000008b, 0x80000000),
   (0x00008089, 0x80000000),
   (0x00008003, 0x80000000),
   (0x00008002, 0x80000000),
   (0x00000080, 0x80000000),
   (0x0000800a, 0x00000000),
   (0x8000000a, 0x80000000),
   (0x80008081, 0x80000000),
   (0x00008080, 0x80000000),
   (0x80000001, 0x00000000),
   (0x80008008, 0x80000000)]

def keccakRC : List Nat :=
  keccakRCHalves.map fun p => p.2 * 2 ^ 32 + p.1

/-- ρ rotation amounts, stored column-major: the entry for lane (x, y) sits
at position 5 * x + y. -/
def keccakRotOffs : List Nat :=
  [0, 36, 3, 41, 18,
   1, 44, 10, 45, 2,
   62, 6, 43, 15, 61,
   28, 55, 25, 21, 56,
   27, 20, 39, 8, 14]

def lane (s : List Nat) (x y : Nat) : Nat :=
  s.getD (x % 5 + 5 * (y % 5)) 0

def thetaStep (s : List Nat) : List Nat :=
  (List.range 25).map fun i =>
    let x := i % 5
    let c := fun j => lane s j 0 ^^^ lane s j 1 ^^^ lane s j 2 ^^^ lane s j 3 ^^^ lane s j 4
    s.getD i 0 ^^^ c ((x + 4) % 5) ^^^ rotl64 (c ((x + 1) % 5)) 1

def rhopiStep (s : List Nat) : List Nat :=
  (List.range 25).map fun i =>
    let xB := i % 5
    let yB := i / 5
    let x := (xB + 3 * yB) % 5
    let y := xB
    rotl64 (lane s x y) (keccakRotOffs.getD (5 * x + y) 0)

def chiStep (s : List Nat) : List Nat :=
  (List.range 25).map fun i =>
    let x := i % 5
    let y := i / 5
    lane s x y ^^^ ((lane s (x + 1) y ^^^ (2 ^ 64 - 1)) &&& lane s (x + 2) y)

def iotaStep (rc : Nat) (s : List Nat) : List Nat :=
  match s with
  | [] => []
  | a :: rest => (a ^^^ rc) :: rest

def keccakRound (s : List Nat) (rc : Nat) : List Nat :=
  iotaStep rc (chiStep (rhopiStep (thetaStep s)))

def keccakF (s : List Nat) : List Nat :=
  keccakRC.foldl keccakRound s

def bytesToLane (bs : List Nat) : Nat :=
  bs.foldr (fun b acc => b + 256 * acc) 0

def xorBlock (s block : List Nat) : List Nat :=
  (List.range 25).map fun i => s.getD i 0 ^^^ bytesToLane ((block.drop (8 * i)).take 8)

def keccakPad (msg : List Nat) : List Nat :=
  let padLen := 136 - msg.length % 136
  if padLen = 1 then msg ++ [0x81]
  else msg ++ 0x01 :: (List.replicate (padLen - 2) 0 ++ [0x80])

def absorbAux : Nat → List Nat → List Nat → List Nat
  | _, s, [] => s
  | 0, s, _ => s
  | fuel + 1, s, b :: rest =>
    absorbAux fuel (keccakF (xorBlock s ((b :: rest).take 136))) ((b :: rest).drop 136)

def absorb (s msg : List Nat) : List Nat :=
  absorbAux msg.length s msg

def laneBytes (x : Nat) : List Nat :=
  (List.range 8).map fun i => (x >>> (8 * i)) &&& 255

def keccak256 (msg : List Nat) : List Nat :=
  ((absorb (List.replicate 25 0) (keccakPad msg)).take 4).flatMap laneBytes

/-- Sanity anchor for the Keccak embedding: the well-known digest of the
empty input. -/
theorem keccak256_empty :
    keccak256 [] =
      [0xc5, 0xd2, 0x46, 0x01, 0x86, 0xf7, 0x23, 0x3c,
       0x92, 0x7e, 0x7d, 0xb2, 0xdc, 0xc7, 0x03, 0xc0,
       0xe5, 0x00, 0xb6, 0x53, 0xca, 0x82, 0x27, 0x3b,
       0x7b, 0xfa, 0xd8, 0x04, 0x5d, 0x85, 0xa4, 0x70] := by
  decide

/-! ### ABI call data for `confirmTransaction(uint256)`

Embedded from web3's contract-call encoding: the call data is the first
four bytes of the Keccak-256 digest of the canonical signature string,
followed by the 32-byte big-endian encoding of the `uint256` argument.
Arguments outside `[0, 2^256)` are rejected by the encoder (the library
raises), which the embedding models as `none`. -/

def strBytes (s : String) : List Nat :=
  s.toList.map Char.toNat

def confirmTransactionSig : List Nat :=
  strBytes "confirmTransaction(uint256)"

def confirmTransactionSelector : List Nat :=
  (keccak256 confirmTransactionSig).take 4

def beFix : Nat → Nat → List Nat
  | 0, _ => []
  | k + 1, n => beFix k (n / 256) ++ [n % 256]

def uint256be (n : Nat) : List Nat :=
  beFix 32 n

def confirmTransactionData (txnId : Nat) : Option (List Nat) :=
  if txnId < 2 ^ 256 then some (confirmTransactionSelector ++ uint256be txnId) else none

/-- Sanity anchor for the selector embedding: the four selector bytes of
confirmTransaction(uint256) are the well-known 0xc01a8c84. -/
theorem confirmTransactionSelector_eq :
    confirmTransactionSelector = [0xc0, 0x1a, 0x8c, 0x84] := by
  decide

/-! ### RLP serialization

Embedded from pyrlp's `rlp.encode` with inferred sedes, as invoked by the
Trezor script: a non-negative `int` is serialized as its minimal big-endian
byte string (`0` becomes the empty string), a `str` as its UTF-8 bytes
(here pure ASCII), `bytes` as themselves, and a tuple as an RLP list of its
items. -/

def beMinAux : Nat → Nat → List Nat
  | _, 0 => []
  | 0, _ => []
  | fuel + 1, n + 1 => beMinAux fuel ((n + 1) / 256) ++ [(n + 1) % 256]

def beMin (n : Nat) : List Nat :=
  beMinAux n n

def rlpLenHeader (base len : Nat) : List Nat :=
  if len < 56 then [base + len] else (base + 55 + (beMin len).length) :: beMin len

def rlpBytes (b : List Nat) : List Nat :=
  if b.length = 1 ∧ b.headD 0 < 0x80 then b else rlpLenHeader 0x80 b.length ++ b

/-- RLP encoding of a flat sequence of atoms, each given as its byte
string — the shape pyrlp receives from the script: a 9-tuple of ints
(serialized as minimal big-endian), one str (its ASCII bytes) and bytes
objects. -/
def rlpListOfBytes (itemsB : List (List Nat)) : List Nat :=
  let payload := itemsB.flatMap rlpBytes
  rlpLenHeader 0xc0 payload.length ++ payload

/-! ### The web3 layer shared by both scripts

`buildTransaction` on a contract call fills in the library defaults on top
of the caller's overrides: `to` is the contract address, `value` defaults
to 0, `data` is the ABI call data, `chainId` is the node's chain id, and
`gas`/`gasPrice` are taken from the overrides both scripts pass.  The
returned transaction dictionary never contains a `nonce` key (web3 leaves
the nonce to the sender), which the embedding records as an `Option`
field.  `toWei(g, gwei)` multiplies by 10^9. -/

structure TxDescriptor where
  toAddr : String
  value : Nat
  data : List Nat
  gas : Nat
  gasPrice : Nat
  chainId : Nat
  nonce? : Option Nat
deriving DecidableEq

def toWeiGwei (g : Nat) : Nat :=
  g * 10 ^ 9

def buildConfirmTransaction (chainId : Nat) (addr : String) (txnId gas gasPrice : Nat) :
    Option TxDescriptor :=
  (confirmTransactionData txnId).map fun d =>
    { toAddr := addr, value := 0, data := d, gas := gas, gasPrice := gasPrice,
      chainId := chainId, nonce? := none }

/-- Externally visible actions a script run performs, in order. -/
inductive Effect where
  | printText : String → Effect
  | printDescriptor : TxDescriptor → Effect
  | printHex : List Nat → Effect
  | sendTransaction : TxDescriptor → Effect
deriving DecidableEq

/-! ### The Trezor variant (`sign_trezor.py`)

The operator's only input is the gas price in gwei; the transaction id
(47), the destination address, the nonce passed to the device (0) and the
chain id (1, the mainnet node the script connects to) are constants in the
source.  The device's signature triple (v, r, s) returned by
`ethereum.sign_tx` and the `client.features` dump are external responses,
so they are parameters of the model. -/

def trezorAddress : String :=
  "0xA2201234A4652a704f5539058Ccb9ab6EBcD486B"

def trezorTxnId : Nat := 47

def trezorGasLimit : Nat := 200000

def trezorChainId : Nat := 1

def trezorDescriptor (gasPriceGwei : Nat) : Option TxDescriptor :=
  buildConfirmTransaction trezorChainId trezorAddress trezorTxnId trezorGasLimit
    (toWeiGwei gasPriceGwei)

/-- Positional arguments of the `trezorlib.ethereum.sign_tx` call. -/
structure SignTxArgs where
  nonce : Nat
  gasPrice : Nat
  gasLimit : Nat
  toAddr : String
  value : Nat
  data : List Nat
  chainId : Nat
deriving DecidableEq

def trezorSignArgs (gasPriceGwei : Nat) : SignTxArgs :=
  { nonce := 0,
    gasPrice := toWeiGwei gasPriceGwei,
    gasLimit := trezorGasLimit,
    toAddr := trezorAddress,
    value := 0,
    data := ((trezorDescriptor gasPriceGwei).map TxDescriptor.data).getD [],
    chainId := 1 }

/-- The nine RLP fields the Trezor script serializes, each as its atom
byte string: the hand-written six-field head
`(0, gas_price, gas_limit, "0xA22…", 0, data)` with `data = b""`, followed
by the three components of the device's signature triple appended by tuple
concatenation. -/
def trezorRlpFields (gasPriceGwei v : Nat) (r s : List Nat) : List (List Nat) :=
  [beMin 0, beMin (toWeiGwei gasPriceGwei), beMin trezorGasLimit,
   strBytes trezorAddress, beMin 0, [],
   beMin v, r, s]

def trezorPrinted (gasPriceGwei v : Nat) (r s : List Nat) : List Nat :=
  rlpListOfBytes (trezorRlpFields gasPriceGwei v r s)

def trezorEffects (features : String) (gasPriceGwei v : Nat) (r s : List Nat) :
    List Effect :=
  [.printText features, .printHex (trezorPrinted gasPriceGwei v r s)]

/-! ### The Ledger variant (`sign.py`)

Interactive inputs and chain responses are fields of `LedgerInputs`:
the chosen account address, the node's answer to the `isOwner` call, the
multisig address, the transaction id, the gas price in gwei, the node's
chain id, the answer to the sign-and-broadcast prompt, and the node's
response to the broadcast. -/

structure LedgerInputs where
  account : String
  isOwner : Bool
  multisigAddress : String
  txnId : Nat
  gasPriceGwei : Nat
  chainId : Nat
  answer : String
  nodeResponse : String
deriving DecidableEq

def notOwnerMsg (account : String) : String :=
  "Ledger addres is not an owner " ++ account

def ledgerDescriptor (inp : LedgerInputs) : Option TxDescriptor :=
  buildConfirmTransaction inp.chainId inp.multisigAddress inp.txnId 200000
    (toWeiGwei inp.gasPriceGwei)

def ledgerEffects (inp : LedgerInputs) : Option (List Effect) :=
  if inp.isOwner = false then some [.printText (notOwnerMsg inp.account)]
  else
    (ledgerDescriptor inp).map fun txn =>
      .printDescriptor txn ::
        (if inp.answer = "y" then [.sendTransaction txn, .printText inp.nodeResponse]
         else [])

/-! ### Helper lemmas -/

theorem beFix_length (k : Nat) : ∀ n : Nat, (beFix k n).length = k := by
  induction k with
  | zero => intro n; rfl
  | succ k ih => intro n; simp [beFix, ih]

theorem beFix_foldl (k : Nat) : ∀ n a : Nat,
    (beFix k n).foldl (fun acc b => 256 * acc + b) a = a * 256 ^ k + n % 256 ^ k := by
  induction k with
  | zero => intro n a; simp [beFix, Nat.mod_one]
  | succ k ih =>
    intro n a
    have hstep : beFix (k + 1) n = beFix k (n / 256) ++ [n % 256] := rfl
    rw [hstep, List.foldl_append]
    simp only [List.foldl_cons, List.foldl_nil]
    rw [ih]
    have hmod : n % 256 ^ (k + 1) = n % 256 + 256 * (n / 256 % 256 ^ k) := by
      rw [pow_succ, mul_comm (256 ^ k) 256]
      exact Nat.mod_mul
    rw [hmod, pow_succ]
    ring

theorem two_pow_256_eq : (2 : Nat) ^ 256 = 256 ^ 32 := by norm_num

theorem buildConfirmTransaction_inv {cid : Nat} {addr : String} {id g gp : Nat}
    {d : TxDescriptor} (h : buildConfirmTransaction cid addr id g gp = some d) :
    d.toAddr = addr ∧ d.value = 0 ∧ d.data = confirmTransactionSelector ++ uint256be id ∧
      d.gas = g ∧ d.gasPrice = gp ∧ d.chainId = cid ∧ d.nonce? = none := by
  unfold buildConfirmTransaction confirmTransactionData at h
  by_cases hid : id < 2 ^ 256
  · rw [if_pos hid] at h
    simp only [Option.map_some', Option.some.injEq] at h
    rw [← h]
    simp
  · rw [if_neg hid] at h
    simp at h

theorem buildConfirmTransaction_eq (cid : Nat) (addr : String) (id g gp : Nat)
    (hid : id < 2 ^ 256) :
    buildConfirmTransaction cid addr id g gp =
      some { toAddr := addr, value := 0, data := confirmTransactionSelector ++ uint256be id,
             gas := g, gasPrice := gp, chainId := cid, nonce? := none } := by
  unfold buildConfirmTransaction confirmTransactionData
  rw [if_pos hid]
  rfl

theorem ledgerEffects_cases (inp : LedgerInputs) (effs : List Effect)
    (h : ledgerEffects inp = some effs) :
    (inp.isOwner = false ∧ effs = [.printText (notOwnerMsg inp.account)]) ∨
    (inp.isOwner = true ∧ ∃ d, ledgerDescriptor inp = some d ∧
      ((inp.answer ≠ "y" ∧ effs = [.printDescriptor d]) ∨
       (inp.answer = "y" ∧
        effs = [.printDescriptor d, .sendTransaction d, .printText inp.nodeResponse]))) := by
  unfold ledgerEffects at h
  cases hOwn : inp.isOwner with
  | false =>
    rw [hOwn, if_pos rfl] at h
    exact Or.inl ⟨rfl, (Option.some.injEq _ _ ▸ h).symm⟩
  | true =>
    rw [hOwn, if_neg (by simp)] at h
    cases hd : ledgerDescriptor inp with
    | none => rw [hd] at h; simp at h
    | some d =>
      rw [hd] at h
      simp only [Option.map_some', Option.some.injEq] at h
      refine Or.inr ⟨rfl, d, rfl, ?_⟩
      by_cases hAns : inp.answer = "y"
      · rw [if_pos hAns] at h
        exact Or.inr ⟨hAns, h.symm⟩
      · rw [if_neg hAns] at h
        exact Or.inl ⟨hAns, h.symm⟩

/-! ### Claim theorems -/

/-- Claim C3: for every positive transaction id accepted by the encoder,
the call data of the built unsigned transaction is the 4-byte function
selector of confirmTransaction(uint256) followed by the 32-byte big-endian
ABI encoding of the id.  The selector is literally the first four bytes of
the Keccak-256 digest of the signature string, the encoding has exactly 32
bytes, and the final clause certifies that those bytes are genuinely the
big-endian base-256 digits of the id. -/
theorem confirm_call_data_is_selector_then_id (id : Nat) (_hpos : 0 < id)
    (hlt : id < 2 ^ 256) :
    confirmTransactionData id = some (confirmTransactionSelector ++ uint256be id) ∧
      confirmTransactionSelector.length = 4 ∧
      (uint256be id).length = 32 ∧
      (uint256be id).foldl (fun acc b => 256 * acc + b) 0 = id := by
  refine ⟨?_, ?_, beFix_length 32 id, ?_⟩
  · unfold confirmTransactionData
    rw [if_pos hlt]
  · rw [confirmTransactionSelector_eq]
    rfl
  · rw [uint256be, beFix_foldl, Nat.mod_eq_of_lt (two_pow_256_eq ▸ hlt)]
    simp

theorem confirm_call_data_is_selector_then_id_witness :
    0 < 47 ∧ (47 : Nat) < 2 ^ 256 ∧
      (confirmTransactionData 47 = some (confirmTransactionSelector ++ uint256be 47) ∧
        confirmTransactionSelector.length = 4 ∧
        (uint256be 47).length = 32 ∧
        (uint256be 47).foldl (fun acc b => 256 * acc + b) 0 = 47) :=
  ⟨by norm_num, by norm_num,
    confirm_call_data_is_selector_then_id 47 (by norm_num) (by norm_num)⟩

/-- Claim C5: in the Trezor variant, for every operator input (gas price)
and every device response (v, r, s), the nonce passed to the signer is the
constant 0, the nonce serialized at the head of the RLP tuple is 0 (whose
minimal big-endian atom is the empty byte string), and the destination —
both in the sign call and in the RLP tuple — is the fixed address
0xA2201234A4652a704f5539058Ccb9ab6EBcD486B. -/
theorem trezor_nonce_and_destination_hardcoded (g v : Nat) (r s : List Nat) :
    (trezorSignArgs g).nonce = 0 ∧
    (trezorSignArgs g).toAddr = "0xA2201234A4652a704f5539058Ccb9ab6EBcD486B" ∧
    (trezorRlpFields g v r s).head? = some (beMin 0) ∧
    beMin 0 = [] ∧
    (trezorRlpFields g v r s).getD 3 [] =
      strBytes "0xA2201234A4652a704f5539058Ccb9ab6EBcD486B" :=
  ⟨rfl, rfl, rfl, rfl, rfl⟩

/-- Claim C8: for every transaction id and every gas price entered, the
unsigned confirmTransaction descriptor built by either script carries zero
value, and the value argument the Trezor variant passes to the signer is 0
as well. -/
theorem confirm_descriptor_zero_value :
    (∀ (inp : LedgerInputs) (d : TxDescriptor),
        ledgerDescriptor inp = some d → d.value = 0) ∧
    (∀ (g : Nat) (d : TxDescriptor), trezorDescriptor g = some d → d.value = 0) ∧
    (∀ g : Nat, (trezorSignArgs g).value = 0) :=
  ⟨fun _ _ h => (buildConfirmTransaction_inv h).2.1,
   fun _ _ h => (buildConfirmTransaction_inv h).2.1,
   fun _ => rfl⟩

theorem confirm_descriptor_zero_value_witness :
    TxDescriptor.value
      { toAddr := "0xMS", value := 0, data := confirmTransactionSelector ++ uint256be 7,
        gas := 200000, gasPrice := toWeiGwei 2, chainId := 1, nonce? := none } = 0 :=
  confirm_descriptor_zero_value.1 ⟨"0xAcc", true, "0xMS", 7, 2, 1, "y", "ok"⟩ _
    (buildConfirmTransaction_eq 1 "0xMS" 7 200000 (toWeiGwei 2) (by norm_num))

/-- Claim C10: in both variants the built transaction carries the constant
gas limit 200000, and its gas price is the entered gwei integer multiplied
by 10^9 — the exact gwei-to-wei conversion of toWei. -/
theorem gas_limit_and_gas_price (g : Nat) (inp : LedgerInputs) :
    (trezorSignArgs g).gasLimit = 200000 ∧
    (trezorSignArgs g).gasPrice = g * 10 ^ 9 ∧
    (∀ d : TxDescriptor, trezorDescriptor g = some d →
        d.gas = 200000 ∧ d.gasPrice = g * 10 ^ 9) ∧
    (∀ d : TxDescriptor, ledgerDescriptor inp = some d →
        d.gas = 200000 ∧ d.gasPrice = inp.gasPriceGwei * 10 ^ 9) :=
  ⟨rfl, rfl,
   fun _ h => ⟨(buildConfirmTransaction_inv h).2.2.2.1,
     (buildConfirmTransaction_inv h).2.2.2.2.1⟩,
   fun _ h => ⟨(buildConfirmTransaction_inv h).2.2.2.1,
     (buildConfirmTransaction_inv h).2.2.2.2.1⟩⟩

theorem gas_limit_and_gas_price_witness :
    TxDescriptor.gas
        { toAddr := "0xMS", value := 0, data := confirmTransactionSelector ++ uint256be 7,
          gas := 200000, gasPrice := toWeiGwei 2, chainId := 1, nonce? := none } = 200000 ∧
      TxDescriptor.gasPrice
        { toAddr := "0xMS", value := 0, data := confirmTransactionSelector ++ uint256be 7,
          gas := 200000, gasPrice := toWeiGwei 2, chainId := 1, nonce? := none } =
        2 * 10 ^ 9 :=
  (gas_limit_and_gas_price 1 ⟨"0xAcc", true, "0xMS", 7, 2, 1, "y", "ok"⟩).2.2.2 _
    (buildConfirmTransaction_eq 1 "0xMS" 7 200000 (toWeiGwei 2) (by norm_num))

/-- Claim C2 counterexample: at operator input 1 gwei, no descriptor
returned by the call builder satisfies the claim as stated, because the
claim requires the descriptor's nonce field to equal the nonce argument
passed to the signing SDK, yet the dictionary web3's buildTransaction
returns contains no nonce at all (the script passes the hardcoded nonce 0
to the device independently of the descriptor). -/
theorem trezor_descriptor_has_no_nonce_field :
    ¬ ∃ d : TxDescriptor, trezorDescriptor 1 = some d ∧
        d.toAddr = (trezorSignArgs 1).toAddr ∧
        d.value = (trezorSignArgs 1).value ∧
        d.data = (trezorSignArgs 1).data ∧
        d.gas = (trezorSignArgs 1).gasLimit ∧
        d.gasPrice = (trezorSignArgs 1).gasPrice ∧
        d.nonce? = some (trezorSignArgs 1).nonce := by
  rintro ⟨d, hd, -, -, -, -, -, hn⟩
  rw [(buildConfirmTransaction_inv hd).2.2.2.2.2.2] at hn
  exact Option.noConfusion hn

/-- Claim C2 (amended): every field the builder's descriptor does carry —
destination, value, call data, gas limit, gas price, chain id — equals the
corresponding argument of the Trezor SDK sign call; the descriptor carries
no nonce field and the nonce argument is the hardcoded constant 0.  In the
Ledger variant the descriptor object itself is the transaction handed to
send_transaction (the signing middleware). -/
theorem descriptor_fields_handed_to_signers :
    (∀ g : Nat, ∃ d : TxDescriptor, trezorDescriptor g = some d ∧
        d.toAddr = (trezorSignArgs g).toAddr ∧
        d.value = (trezorSignArgs g).value ∧
        d.data = (trezorSignArgs g).data ∧
        d.gas = (trezorSignArgs g).gasLimit ∧
        d.gasPrice = (trezorSignArgs g).gasPrice ∧
        d.chainId = (trezorSignArgs g).chainId ∧
        d.nonce? = none ∧ (trezorSignArgs g).nonce = 0) ∧
    (∀ inp : LedgerInputs, inp.isOwner = true → inp.answer = "y" →
        ∀ d : TxDescriptor, ledgerDescriptor inp = some d →
          ledgerEffects inp =
            some [.printDescriptor d, .sendTransaction d, .printText inp.nodeResponse]) := by
  constructor
  · intro g
    have hd : trezorDescriptor g = some
        { toAddr := trezorAddress, value := 0,
          data := confirmTransactionSelector ++ uint256be trezorTxnId,
          gas := trezorGasLimit, gasPrice := toWeiGwei g, chainId := trezorChainId,
          nonce? := none } :=
      buildConfirmTransaction_eq _ _ _ _ _ (by norm_num [trezorTxnId])
    refine ⟨_, hd, rfl, rfl, ?_, rfl, rfl, rfl, rfl, rfl⟩
    show _ = (trezorSignArgs g).data
    unfold trezorSignArgs
    rw [hd]
    rfl
  · intro inp hOwn hAns d hd
    unfold ledgerEffects
    rw [hOwn, hd, hAns]
    simp

theorem descriptor_fields_handed_to_signers_witness :
    ledgerEffects ⟨"0xAcc", true, "0xMS", 3, 1, 1, "y", "done"⟩ =
      some [.printDescriptor
              { toAddr := "0xMS", value := 0,
                data := confirmTransactionSelector ++ uint256be 3, gas := 200000,
                gasPrice := toWeiGwei 1, chainId := 1, nonce? := none },
            .sendTransaction
              { toAddr := "0xMS", value := 0,
                data := confirmTransactionSelector ++ uint256be 3, gas := 200000,
                gasPrice := toWeiGwei 1, chainId := 1, nonce? := none },
            .printText "done"] :=
  descriptor_fields_handed_to_signers.2 ⟨"0xAcc", true, "0xMS", 3, 1, 1, "y", "done"⟩
    rfl rfl _ (buildConfirmTransaction_eq 1 "0xMS" 3 200000 (toWeiGwei 1) (by norm_num))

/-- Claim C7 counterexample: in the Trezor variant the transaction id is
not obtained from operator input or an on-chain lookup — it is the literal
47: at the two distinct operator inputs 1 and 999 (the gas price is the
only input the script reads), the call data encodes the same constant id
47. -/
theorem trezor_txn_id_constant_47 :
    trezorTxnId = 47 ∧
    (trezorDescriptor 1).map TxDescriptor.data = confirmTransactionData 47 ∧
    (trezorDescriptor 999).map TxDescriptor.data = confirmTransactionData 47 :=
  ⟨rfl, rfl, rfl⟩

/-- Claim C7 (amended): in the Ledger variant the id encoded into the
confirmTransaction call data is the operator-entered transaction id; in
the Trezor variant it is the hardcoded constant 47, independent of every
input. -/
theorem txn_id_origin_by_variant (inp : LedgerInputs) (g : Nat) :
    (∀ d : TxDescriptor, ledgerDescriptor inp = some d →
        d.data = confirmTransactionSelector ++ uint256be inp.txnId) ∧
    (∀ d : TxDescriptor, trezorDescriptor g = some d →
        d.data = confirmTransactionSelector ++ uint256be 47) :=
  ⟨fun _ h => (buildConfirmTransaction_inv h).2.2.1,
   fun _ h => (buildConfirmTransaction_inv h).2.2.1⟩

theorem txn_id_origin_by_variant_witness :
    TxDescriptor.data
        { toAddr := "0xMS", value := 0, data := confirmTransactionSelector ++ uint256be 9,
          gas := 200000, gasPrice := toWeiGwei 2, chainId := 1, nonce? := none } =
      confirmTransactionSelector ++ uint256be 9 :=
  (txn_id_origin_by_variant ⟨"0xAcc", true, "0xMS", 9, 2, 1, "y", "ok"⟩ 1).1 _
    (buildConfirmTransaction_eq 1 "0xMS" 9 200000 (toWeiGwei 2) (by norm_num))

/-- Claim C4 counterexample: the Ledger script does branch on an error
condition of its own and terminate early with a diagnostic instead of
raising: on a concrete input whose isOwner answer is false the run emits
only the not-an-owner diagnostic, while the identical input with isOwner
true proceeds to the transaction flow. -/
theorem ledger_branches_on_is_owner :
    ledgerEffects ⟨"0xOwner", false, "0xMS", 1, 1, 1, "y", "ok"⟩ =
      some [.printText (notOwnerMsg "0xOwner")] ∧
    ledgerEffects ⟨"0xOwner", true, "0xMS", 1, 1, 1, "y", "ok"⟩ ≠
      ledgerEffects ⟨"0xOwner", false, "0xMS", 1, 1, 1, "y", "ok"⟩ := by
  have hd : ledgerDescriptor ⟨"0xOwner", true, "0xMS", 1, 1, 1, "y", "ok"⟩ =
      some { toAddr := "0xMS", value := 0,
             data := confirmTransactionSelector ++ uint256be 1, gas := 200000,
             gasPrice := toWeiGwei 1, chainId := 1, nonce? := none } :=
    buildConfirmTransaction_eq _ _ _ _ _ (by norm_num)
  refine ⟨rfl, ?_⟩
  have h1 : ledgerEffects ⟨"0xOwner", true, "0xMS", 1, 1, 1, "y", "ok"⟩ =
      some [.printDescriptor
              { toAddr := "0xMS", value := 0,
                data := confirmTransactionSelector ++ uint256be 1, gas := 200000,
                gasPrice := toWeiGwei 1, chainId := 1, nonce? := none },
            .sendTransaction
              { toAddr := "0xMS", value := 0,
                data := confirmTransactionSelector ++ uint256be 1, gas := 200000,
                gasPrice := toWeiGwei 1, chainId := 1, nonce? := none },
            .printText "ok"] := by
    unfold ledgerEffects
    rw [hd]
    simp
  have h0 : ledgerEffects ⟨"0xOwner", false, "0xMS", 1, 1, 1, "y", "ok"⟩ =
      some [.printText (notOwnerMsg "0xOwner")] := rfl
  rw [h1, h0]
  simp

/-- Claim C4 (amended): beyond the Ledger variant's single isOwner guard
(diagnostic print, early return), neither script has error handling of its
own: the Trezor trace is the same straight-line two prints for every
input, and every Ledger trace is either the guard diagnostic alone or the
built-transaction flow, whose only further branch is the consent prompt. -/
theorem script_control_flow_traces :
    (∀ (features : String) (g v : Nat) (r s : List Nat),
        trezorEffects features g v r s =
          [.printText features, .printHex (trezorPrinted g v r s)]) ∧
    (∀ (inp : LedgerInputs) (effs : List Effect), ledgerEffects inp = some effs →
        effs = [.printText (notOwnerMsg inp.account)] ∨
        ∃ d, ledgerDescriptor inp = some d ∧
          (effs = [.printDescriptor d] ∨
           effs = [.printDescriptor d, .sendTransaction d,
                   .printText inp.nodeResponse])) := by
  refine ⟨fun _ _ _ _ _ => rfl, fun inp effs h => ?_⟩
  rcases ledgerEffects_cases inp effs h with ⟨-, he⟩ | ⟨-, d, hd, he⟩
  · exact Or.inl he
  · rcases he with ⟨-, he⟩ | ⟨-, he⟩
    · exact Or.inr ⟨d, hd, Or.inl he⟩
    · exact Or.inr ⟨d, hd, Or.inr he⟩

theorem script_control_flow_traces_witness :
    [Effect.printText (notOwnerMsg "0xAcc")] =
        [Effect.printText (notOwnerMsg "0xAcc")] ∨
      ∃ d, ledgerDescriptor ⟨"0xAcc", false, "0xMS", 1, 1, 1, "n", "ok"⟩ = some d ∧
        ([Effect.printText (notOwnerMsg "0xAcc")] = [Effect.printDescriptor d] ∨
         [Effect.printText (notOwnerMsg "0xAcc")] =
           [Effect.printDescriptor d, Effect.sendTransaction d, Effect.printText "ok"]) :=
  script_control_flow_traces.2 ⟨"0xAcc", false, "0xMS", 1, 1, 1, "n", "ok"⟩
    [Effect.printText (notOwnerMsg "0xAcc")] rfl

/-- Claim C9: in the Ledger variant, when the isOwner call answers false
the run prints the not-an-owner message and returns without printing a
built transaction, signing, or broadcasting; the transaction flow is
reached only when isOwner answers true. -/
theorem ledger_not_owner_early_return (inp : LedgerInputs) (effs : List Effect)
    (h : ledgerEffects inp = some effs) :
    (inp.isOwner = false →
        effs = [.printText (notOwnerMsg inp.account)] ∧
        (∀ t, Effect.sendTransaction t ∉ effs) ∧
        (∀ d, Effect.printDescriptor d ∉ effs)) ∧
    (∀ d, Effect.printDescriptor d ∈ effs → inp.isOwner = true) ∧
    (∀ t, Effect.sendTransaction t ∈ effs → inp.isOwner = true) := by
  rcases ledgerEffects_cases inp effs h with ⟨hOwn, he⟩ | ⟨hOwn, d, hd, he⟩
  · subst he
    exact ⟨fun _ => ⟨rfl, by simp, by simp⟩, by simp, by simp⟩
  · exact ⟨fun hfalse => absurd (hOwn.symm.trans hfalse) (by simp),
      fun _ _ => hOwn, fun _ _ => hOwn⟩

theorem ledger_not_owner_early_return_witness :
    [Effect.printText (notOwnerMsg "0xAcc")] =
        [Effect.printText (notOwnerMsg "0xAcc")] ∧
      (∀ t, Effect.sendTransaction t ∉ [Effect.printText (notOwnerMsg "0xAcc")]) ∧
      (∀ d, Effect.printDescriptor d ∉ [Effect.printText (notOwnerMsg "0xAcc")]) :=
  (ledger_not_owner_early_return ⟨"0xAcc", false, "0xMS", 1, 1, 1, "n", "ok"⟩
    [Effect.printText (notOwnerMsg "0xAcc")] rfl).1 rfl

/-- Claim C6: the Trezor variant never broadcasts — its trace contains no
node send and ends with the printed serialized transaction — and the
Ledger variant broadcasts exactly when the operator answers the literal
string y at the sign-and-broadcast prompt (and the isOwner guard passed). -/
theorem broadcast_only_with_consent :
    (∀ (features : String) (g v : Nat) (r s : List Nat) (t : TxDescriptor),
        Effect.sendTransaction t ∉ trezorEffects features g v r s ∧
        (trezorEffects features g v r s).getLast? =
          some (.printHex (trezorPrinted g v r s))) ∧
    (∀ (inp : LedgerInputs) (effs : List Effect), ledgerEffects inp = some effs →
        (∀ t, Effect.sendTransaction t ∈ effs →
            inp.answer = "y" ∧ inp.isOwner = true) ∧
        (inp.isOwner = true → inp.answer = "y" →
          ∀ d, ledgerDescriptor inp = some d → Effect.sendTransaction d ∈ effs)) := by
  constructor
  · intro features g v r s t
    exact ⟨by simp [trezorEffects], rfl⟩
  · intro inp effs h
    rcases ledgerEffects_cases inp effs h with ⟨hOwn, he⟩ | ⟨hOwn, d, hd, he⟩
    · subst he
      exact ⟨by simp, fun htrue => absurd (hOwn.symm.trans htrue) (by simp)⟩
    · rcases he with ⟨hAns, he⟩ | ⟨hAns, he⟩
      · subst he
        refine ⟨fun t ht => ?_, fun _ hy _ _ => absurd hy hAns⟩
        simp at ht
      · subst he
        refine ⟨fun t _ => ⟨hAns, hOwn⟩, fun _ _ d' hd' => ?_⟩
        have hdd : d = d' := Option.some.inj (hd ▸ hd')
        subst hdd
        simp

theorem broadcast_only_with_consent_witness :
    Effect.sendTransaction
        { toAddr := "0xMS", value := 0, data := confirmTransactionSelector ++ uint256be 3,
          gas := 200000, gasPrice := toWeiGwei 1, chainId := 1, nonce? := none } ∈
      [Effect.printDescriptor
          { toAddr := "0xMS", value := 0, data := confirmTransactionSelector ++ uint256be 3,
            gas := 200000, gasPrice := toWeiGwei 1, chainId := 1, nonce? := none },
       Effect.sendTransaction
          { toAddr := "0xMS", value := 0, data := confirmTransactionSelector ++ uint256be 3,
            gas := 200000, gasPrice := toWeiGwei 1, chainId := 1, nonce? := none },
       Effect.printText "done"] :=
  (broadcast_only_with_consent.2 ⟨"0xAcc", true, "0xMS", 3, 1, 1, "y", "done"⟩ _ rfl).2
    rfl rfl _ (buildConfirmTransaction_eq 1 "0xMS" 3 200000 (toWeiGwei 1) (by norm_num))

/-- Claim C1 (documenting a code bug): at operator input 1 gwei and a
concrete device signature (v = 37, r = 32 bytes 0x11, s = 32 bytes 0x22),
the printed transaction is indeed the RLP serialization of a nine-field
tuple in which the signature triple is correctly destructured into the
last three fields, but its sixth (data) field is the empty byte string —
the script rebuilds `data = b""` instead of reusing the confirmTransaction
call data that was signed — so the printed bytes differ from the
serialization the claim describes. -/
theorem trezor_serialization_drops_signed_call_data :
    trezorPrinted 1 37 (List.replicate 32 0x11) (List.replicate 32 0x22) =
      rlpListOfBytes
        [[], beMin 1000000000, beMin 200000, strBytes trezorAddress, [], [],
         beMin 37, List.replicate 32 0x11, List.replicate 32 0x22] ∧
    (trezorSignArgs 1).data = confirmTransactionSelector ++ uint256be 47 ∧
    (trezorSignArgs 1).data ≠ [] ∧
    trezorPrinted 1 37 (List.replicate 32 0x11) (List.replicate 32 0x22) ≠
      rlpListOfBytes
        [[], beMin 1000000000, beMin 200000, strBytes trezorAddress, [],
         (trezorSignArgs 1).data,
         beMin 37, List.replicate 32 0x11, List.replicate 32 0x22] := by
  have hd : trezorDescriptor 1 = some
      { toAddr := trezorAddress, value := 0,
        data := confirmTransactionSelector ++ uint256be trezorTxnId,
        gas := trezorGasLimit, gasPrice := toWeiGwei 1, chainId := trezorChainId,
        nonce? := none } :=
    buildConfirmTransaction_eq _ _ _ _ _ (by norm_num [trezorTxnId])
  have hdata : (trezorSignArgs 1).data = confirmTransactionSelector ++ uint256be 47 := by
    unfold trezorSignArgs
    rw [hd]
    rfl
  refine ⟨rfl, hdata, ?_, ?_⟩
  · rw [hdata, confirmTransactionSelector_eq]
    simp
  · rw [hdata, confirmTransactionSelector_eq]
    decide

end Multisig
